/- Verification of the DataEngine statistics / data-acquisition core of the
   crypto-volatility-risk-analyzer repository (src/data_engine.py and the
   risk-classification helper of src/milestone_4_display.py), shallowly
   embedded over exact rationals.

   Modelling conventions:
   * Python floats are modelled as exact rationals (ℚ); a float NaN is
     modelled with `Option ℚ` (`none` = NaN) wherever one can arise.
   * `np.log` produces irrational values, so a returns row stores the exact
     price ratio `price[t] / price[t-1]` (the argument of `np.log`) next to
     the float log value, which is threaded through the whole pipeline as an
     abstract `logFn : ℚ → Option ℚ` (`none` models the NaN that `np.log`
     produces on non-positive arguments).  Statements about the ideal log
     value use `Real.log ratio`.
   * Square roots are irrational, so volatility-like quantities are carried
     as their squares (variances), and `RVal` represents float values of the
     shape `q` or `n / √d` exactly.
   * Network effects (source outcomes) are passed to the embedded functions
     as explicit arguments of type `SrcRes`; an exception raised inside a
     `try` block is the `SrcRes.exc` outcome.  -/
import Mathlib

set_option maxHeartbeats 1000000

/-! ## numpy helpers (total functions; every call site guards `n ≥ 2`) -/

/-- Mean of a list of rationals (`np.mean`). -/
def npMean (xs : List ℚ) : ℚ := xs.sum / xs.length

/-- Population variance: `np.var` with its default `ddof = 0`. -/
def npVarPop (xs : List ℚ) : ℚ :=
  (xs.map (fun x => (x - npMean xs) ^ 2)).sum / xs.length

/-- Sample variance (`ddof = 1`), the diagonal entries of `np.cov`. -/
def npVarSample (xs : List ℚ) : ℚ :=
  (xs.map (fun x => (x - npMean xs) ^ 2)).sum / ((xs.length : ℚ) - 1)

/-- Sample covariance `np.cov(a, b)[0][1]` (default normalization `N - 1`). -/
def npCovSample (xs ys : List ℚ) : ℚ :=
  ((xs.zip ys).map (fun p => (p.1 - npMean xs) * (p.2 - npMean ys))).sum
    / ((xs.length : ℚ) - 1)

/-! ## pandas helpers over possibly-NaN series (`Option ℚ`, `none` = NaN) -/

/-- `Series.mean()` with pandas' default `skipna=True`; NaN when no valid
    entry remains. -/
def pandasMean (xs : List (Option ℚ)) : Option ℚ :=
  let v := xs.filterMap id
  if v.length = 0 then none else some (npMean v)

/-- The square of `Series.std()` (sample standard deviation, `ddof = 1`,
    `skipna=True`): NaN when fewer than 2 valid entries remain, else the
    sample variance of the valid entries. -/
def pandasSampleVar (xs : List (Option ℚ)) : Option ℚ :=
  let v := xs.filterMap id
  if v.length < 2 then none else some (npVarSample v)

/-! ## DataEngine.calculate_log_returns (src/data_engine.py lines 248-270) -/

/-- One row of the returns DataFrame.  `ratio = price[t] / price[t-1]` is the
    exact argument handed to `np.log`; `log_return` is the float produced by
    `np.log` (threaded through the abstract `logFn`); `simple_return` is
    `np.diff(prices) / prices[:-1]`; `ts` is the `date` index entry. -/
structure ReturnRow where
  ts : ℕ
  ratio : ℚ
  log_return : Option ℚ
  simple_return : ℚ
deriving DecidableEq

/-- The `df.tail(1000)` truncation applied whenever `len(df) > 1000`. -/
def tail1000 {α : Type} (l : List α) : List α :=
  if l.length > 1000 then l.drop (l.length - 1000) else l

/-- The consecutive-pair rows `np.log(prices[1:] / prices[:-1])`,
    `np.diff(prices) / prices[:-1]`, indexed by `price_data.index[1:]`. -/
def returnRows (logFn : ℚ → Option ℚ) (price_data : List (ℕ × ℚ)) : List ReturnRow :=
  List.zipWith
    (fun prev cur =>
      ReturnRow.mk cur.1 (cur.2 / prev.2) (logFn (cur.2 / prev.2))
        ((cur.2 - prev.2) / prev.2))
    price_data price_data.tail

/-- `DataEngine.calculate_log_returns`: Python `None` for fewer than 2 prices,
    otherwise the consecutive-pair returns rows truncated to the last 1000. -/
def calculate_log_returns (logFn : ℚ → Option ℚ) (price_data : List (ℕ × ℚ)) :
    Option (List ReturnRow) :=
  if price_data.length < 2 then none
  else some (tail1000 (returnRows logFn price_data))

/-! ## exact representation of float values of the shape `q` or `n / √d` -/

/-- A float value tracked exactly: `exact q` is the rational `q`,
    `sqrtQuot n d` is the real number `n / √d`, and `nan` is float NaN. -/
inductive RVal where
  | exact (q : ℚ)
  | sqrtQuot (n d : ℚ)
  | nan
deriving DecidableEq

/-! ## DataEngine.calculate_volatility (lines 272-292) -/

/-- The dict returned by `calculate_volatility`.  The two volatilities are
    carried as their squares: `daily_volatility = √daily_var` and
    `annualized_volatility = √annual_var` (`none` = NaN, the std of fewer
    than 2 valid returns).  `volatility_data` is the log-return column. -/
structure VolatilityResult where
  daily_var : Option ℚ
  annual_var : Option ℚ
  volatility_data : List (Option ℚ)
deriving DecidableEq

/-- `DataEngine.calculate_volatility`; annualization multiplies the
    volatility by `√365`, i.e. the variance by 365. -/
def calculate_volatility (returns_data : List ReturnRow) (annualize : Bool) :
    Option VolatilityResult :=
  if returns_data.length = 0 then none
  else
    let logs := returns_data.map (fun r => r.log_return)
    let dv := pandasSampleVar logs
    some (VolatilityResult.mk dv (if annualize then dv.map (fun v => v * 365) else dv) logs)

/-! ## DataEngine.calculate_sharpe_ratio (lines 294-318) -/

/-- The dict returned by `calculate_sharpe_ratio`; `annual_volatility` is
    carried as its square `annual_var` (`annual_volatility = √annual_var`,
    `none` = NaN). -/
structure SharpeResult where
  sharpe_ratio : RVal
  annual_return : Option ℚ
  annual_var : Option ℚ
  risk_free_rate : ℚ
deriving DecidableEq

/-- `DataEngine.calculate_sharpe_ratio`.  The code branches on
    `annual_vol == 0`; `annual_vol = √(365 · v)` for the sample variance
    `v ≥ 0` of the log returns, so that float test is equivalent to the
    rational test `365 · v = 0` (lemma `sqrt_eq_zero_iff_of_nonneg`).  When
    the volatility is NaN (fewer than 2 valid returns) the float comparison
    `NaN == 0` is false and the division returns NaN. -/
def calculate_sharpe_ratio (returns_data : List ReturnRow) (risk_free_rate : ℚ) :
    Option SharpeResult :=
  if returns_data.length = 0 then none
  else
    let logs := returns_data.map (fun r => r.log_return)
    let ar := (pandasMean logs).map (fun m => m * 365)
    let avar := (pandasSampleVar logs).map (fun v => v * 365)
    let sr : RVal :=
      match avar, ar with
      | some a, some r => if a = 0 then RVal.exact 0 else RVal.sqrtQuot (r - risk_free_rate) a
      | _, _ => RVal.nan
    some (SharpeResult.mk sr ar avar risk_free_rate)

/-! ## DataEngine.calculate_beta (lines 320-355) -/

/-- The dict returned by `calculate_beta` in its generic branch.
    `correlation = np.corrcoef(a, b)[0][1] = covariance / √corr_den2` where
    `corr_den2` is the product of the two sample variances; the float is NaN
    exactly when that denominator is 0, which `RVal.nan` records. -/
structure BetaResult where
  beta : ℚ
  correlation : RVal
  r_squared : ℚ
  covariance : ℚ
  benchmark_variance : ℚ
deriving DecidableEq

/-- `calculate_beta` is dynamically typed: it returns Python `None`, the bare
    int `0` (zero benchmark variance branch, line 341), or the metrics dict. -/
inductive BetaReturn where
  | none
  | scalar (q : ℚ)
  | result (r : BetaResult)
deriving DecidableEq

/-- The element pairs surviving
    `valid_mask = ~(np.isnan(asset) | np.isnan(benchmark))`. -/
def validPairs (a b : List (Option ℚ)) : List (ℚ × ℚ) :=
  (a.zip b).filterMap
    (fun p =>
      match p with
      | (some x, some y) => some (x, y)
      | _ => Option.none)

/-- `DataEngine.calculate_beta`.  Note that the numerator is the sample
    covariance (`np.cov`, normalization `N - 1`) while the denominator is the
    population variance (`np.var`, default `ddof = 0`). -/
def calculate_beta (asset_returns benchmark_returns : List (Option ℚ)) : BetaReturn :=
  if asset_returns.length ≠ benchmark_returns.length then BetaReturn.none
  else
    let pairs := validPairs asset_returns benchmark_returns
    if pairs.length < 2 then BetaReturn.none
    else
      let ac := pairs.map Prod.fst
      let bc := pairs.map Prod.snd
      let covariance := npCovSample ac bc
      let benchmark_variance := npVarPop bc
      if benchmark_variance = 0 then BetaReturn.scalar 0
      else
        let corr_den2 := npVarSample ac * npVarSample bc
        BetaReturn.result
          (BetaResult.mk (covariance / benchmark_variance)
            (if corr_den2 = 0 then RVal.nan else RVal.sqrtQuot covariance corr_den2)
            (if corr_den2 = 0 then 0 else covariance ^ 2 / corr_den2)
            covariance benchmark_variance)

/-! ## DataEngine._classify_risk (lines 471-480) -/

/-- `DataEngine._classify_risk`: the volatility-threshold ladder, all
    boundaries strict. -/
def _classify_risk (volatility : ℚ) : String :=
  if volatility < 3/10 then "Low Risk"
  else if volatility < 3/5 then "Medium Risk"
  else if volatility < 1 then "High Risk"
  else "Very High Risk"

/-- Severity order of the four risk labels. -/
def riskRank (s : String) : ℕ :=
  if s = "Low Risk" then 0
  else if s = "Medium Risk" then 1
  else if s = "High Risk" then 2
  else 3

/-! ## milestone_4_display.apply_custom_risk_classification (lines 437-472) -/

/-- The `np.select` ladder classifying one row by volatility (first true
    condition wins).  Over ℚ the four conditions are exhaustive for any
    thresholds, so the `np.select` default never fires. -/
def volatilityRisk (v vol_low vol_medium vol_high : ℚ) : String :=
  if v ≤ vol_low then "Low Risk"
  else if vol_low < v ∧ v ≤ vol_medium then "Medium Risk"
  else if vol_medium < v ∧ v ≤ vol_high then "High Risk"
  else if vol_high < v then "Very High Risk"
  else "Unknown"

/-- The `np.select` ladder classifying one row by Sharpe ratio. -/
def sharpePerformance (s sharpe_excellent sharpe_good sharpe_poor : ℚ) : String :=
  if sharpe_excellent ≤ s then "Excellent"
  else if sharpe_good ≤ s ∧ s < sharpe_excellent then "Good"
  else if sharpe_poor ≤ s ∧ s < sharpe_good then "Poor"
  else if s < sharpe_poor then "Very Poor"
  else "Unknown"

/-- The three columns `apply_custom_risk_classification` adds to one row. -/
structure ClassifiedRow where
  volatility_risk : String
  sharpe_performance : String
  risk_level : String
deriving DecidableEq

/-- `apply_custom_risk_classification` restricted to a single row: the
    volatility ladder first, then the `sharpe_ratio < -2` override to
    Very High Risk, then the `sharpe_ratio > 2` Medium-to-Low downgrade. -/
def apply_custom_risk_classification
    (annualized_volatility sharpe_ratio vol_low vol_medium vol_high
      sharpe_excellent sharpe_good sharpe_poor : ℚ) : ClassifiedRow :=
  let vr := volatilityRisk annualized_volatility vol_low vol_medium vol_high
  let sp := sharpePerformance sharpe_ratio sharpe_excellent sharpe_good sharpe_poor
  let r2 := if sharpe_ratio < -2 then "Very High Risk" else vr
  let r3 := if sharpe_ratio > 2 then (if r2 = "Medium Risk" then "Low Risk" else r2) else r2
  ClassifiedRow.mk vr sp r3

/-! ## DataEngine state, sync_data (lines 14-63), get_historical_data (166-246) -/

/-- Engine state: `last_update` in wall-clock seconds (`none` before any
    successful sync), the quote cache, and the status string. -/
structure EngineState where
  last_update : Option ℚ
  data_cache : List (String × ℚ)
  status : String
deriving DecidableEq

/-- Outcome of one source call: an exception, or a returned value whose
    Python truthiness is modelled by list non-emptiness (both `None` and an
    empty dict are falsy). -/
inductive SrcRes (α : Type) where
  | exc
  | ret (d : α)
deriving DecidableEq

/-- `DataEngine.get_data_status`: when `last_update` is set it refreshes
    `self.status` from the age of the data and returns it. -/
def get_data_status (s : EngineState) (now : ℚ) : String × EngineState :=
  match s.last_update with
  | some t =>
      if now - t < 60 then ("ready", EngineState.mk s.last_update s.data_cache ("ready"))
      else ("stale", EngineState.mk s.last_update s.data_cache ("stale"))
  | none => (s.status, s)

/-- The source loop of `sync_data` (lines 50-63): an exception or a falsy
    (empty) result advances to the next source; the first truthy result is
    cached, timestamped and returned; exhaustion sets status "error" and
    returns `None`. -/
def syncLoop (s : EngineState) (now : ℚ) :
    List (SrcRes (List (String × ℚ))) → Option (List (String × ℚ)) × EngineState
  | [] => (none, EngineState.mk s.last_update s.data_cache ("error"))
  | SrcRes.exc :: rest => syncLoop s now rest
  | SrcRes.ret d :: rest =>
      if d = [] then syncLoop s now rest
      else (some d, EngineState.mk (some now) d ("ready"))

/-- `DataEngine.sync_data`, with the outcome of each configured source
    (the fixed priority list CoinGecko, Binance, CryptoCompare) passed in as
    `sources`. -/
def sync_data (s : EngineState) (now : ℚ) (force : Bool)
    (sources : List (SrcRes (List (String × ℚ)))) :
    Option (List (String × ℚ)) × EngineState :=
  let st := get_data_status s now
  if force = false ∧ st.1 = "ready" then (some st.2.data_cache, st.2)
  else syncLoop (EngineState.mk st.2.last_update st.2.data_cache ("syncing")) now sources

/-- `DataEngine.get_historical_data`, with the outcomes of the Binance and
    CoinGecko attempts passed in.  `binanceKnown` is `symbol in binance_pairs`
    and `coingeckoKnown` is the symbol lookup in `self.cryptocurrencies`
    (both checked before the respective request).  A frame built from a
    successful response is truncated to its last 1000 rows; an *empty*
    Binance frame is falsy (`if data:`) and falls through to CoinGecko, but
    the CoinGecko branch returns its frame without an emptiness check. -/
def get_historical_data (binanceKnown : Bool) (binanceRes : SrcRes (List (ℕ × ℚ)))
    (coingeckoKnown : Bool) (coingeckoRes : SrcRes (List (ℕ × ℚ))) :
    Option (List (ℕ × ℚ)) :=
  let fromBinance : Option (List (ℕ × ℚ)) :=
    if binanceKnown then
      match binanceRes with
      | SrcRes.exc => none
      | SrcRes.ret d => if d = [] then none else some (tail1000 d)
    else none
  match fromBinance with
  | some d => some d
  | none =>
      if coingeckoKnown = false then none
      else
        match coingeckoRes with
        | SrcRes.exc => none
        | SrcRes.ret d => some (tail1000 d)

/-! ## DataEngine.generate_metrics_table (lines 387-469) -/

/-- One row of the metrics table.  The two volatility columns carry the
    squares of the float columns (`annualized_volatility = √annual_vol_var`,
    `none` = NaN); `sharpe_ratio` and `correlation_vs_btc` are exact float
    values.  The wall-clock `last_updated` column is omitted. -/
structure MetricsRow where
  symbol : String
  name : String
  current_price : ℚ
  price_change_24h : ℚ
  daily_vol_var : Option ℚ
  annual_vol_var : Option ℚ
  sharpe_ratio : RVal
  annual_return : Option ℚ
  beta : ℚ
  correlation_vs_btc : RVal
  r_squared : ℚ
  data_points : ℕ
  risk_level : String
deriving DecidableEq

/-- The metrics dict compiled for one symbol (lines 419-450), with the Python
    truthiness defaults of lines 441-447: a `None` volatility or Sharpe dict
    defaults its fields to 0, and a falsy `beta_metrics` — Python `None`, or
    the bare int `0` that `calculate_beta` returns on zero benchmark
    variance (the only scalar it ever produces) — defaults beta to 1.0 and
    correlation / r² to 0.  The `risk_level` column is added only after the
    loop, so it is initialised empty here. -/
def mkRow (symbol name : String) (price_data : List (ℕ × ℚ))
    (returns_data : List ReturnRow) (benchmark_returns : Option (List ReturnRow))
    (benchmark_symbol : String) : MetricsRow :=
  let volatility := calculate_volatility returns_data true
  let sharpe := calculate_sharpe_ratio returns_data (2/100)
  let beta_metrics : BetaReturn :=
    match benchmark_returns with
    | some br =>
        if symbol ≠ benchmark_symbol then
          calculate_beta (returns_data.map (fun r => r.log_return))
            (br.map (fun r => r.log_return))
        else BetaReturn.none
    | none => BetaReturn.none
  MetricsRow.mk symbol name
    ((price_data.getLastD (0, 0)).2)
    ((returns_data.getLastD (ReturnRow.mk 0 0 Option.none 0)).simple_return * 100)
    (match volatility with | some v => v.daily_var | none => some 0)
    (match volatility with | some v => v.annual_var | none => some 0)
    (match sharpe with | some sh => sh.sharpe_ratio | none => RVal.exact 0)
    (match sharpe with | some sh => sh.annual_return | none => some 0)
    (match beta_metrics with | BetaReturn.result r => r.beta | _ => 1)
    (match beta_metrics with | BetaReturn.result r => r.correlation | _ => RVal.exact 0)
    (match beta_metrics with | BetaReturn.result r => r.r_squared | _ => 0)
    returns_data.length
    ""

/-- `_classify_risk` applied to the float `annualized_volatility` column,
    which holds `√annual_vol_var` (or NaN).  Every `<` comparison against
    NaN is false, so a NaN volatility falls through to "Very High Risk"; on
    real values the thresholds square (see `sqrt_lt_threshold_iff`). -/
def classify_risk_var (v : Option ℚ) : String :=
  match v with
  | none => "Very High Risk"
  | some var =>
      if var < 9/100 then "Low Risk"
      else if var < 9/25 then "Medium Risk"
      else if var < 1 then "High Risk"
      else "Very High Risk"

/-- Adding the `risk_level` column (line 463). -/
def addRisk (row : MetricsRow) : MetricsRow :=
  MetricsRow.mk row.symbol row.name row.current_price row.price_change_24h
    row.daily_vol_var row.annual_vol_var row.sharpe_ratio row.annual_return
    row.beta row.correlation_vs_btc row.r_squared row.data_points
    (classify_risk_var row.annual_vol_var)

/-- The per-symbol body of the aggregator loop (lines 401-453): skip the
    symbol when its series cannot be resolved or its returns are
    insufficient, otherwise build its row. -/
def symbolRow (resolve : String → Option (List (ℕ × ℚ))) (logFn : ℚ → Option ℚ)
    (benchmark_returns : Option (List ReturnRow)) (benchmark_symbol : String)
    (crypto : String × String) : Option MetricsRow :=
  match resolve crypto.1 with
  | none => none
  | some price_data =>
      match calculate_log_returns logFn price_data with
      | none => none
      | some returns_data =>
          some (mkRow crypto.1 crypto.2 price_data returns_data benchmark_returns
            benchmark_symbol)

/-- `DataEngine.generate_metrics_table`, parameterized by the resolver
    outcome (`resolve` abstracts `get_historical_data · (days := 90)`), the
    float log, the engine's `(symbol, name)` asset list, the benchmark
    symbol, and the relation `r` used by
    `sort_values('sharpe_ratio', ascending=False)` — that sort key is a
    float and no verified claim depends on the ordering, so the relation is
    kept abstract. -/
def generate_metrics_table (resolve : String → Option (List (ℕ × ℚ)))
    (logFn : ℚ → Option ℚ) (cryptos : List (String × String))
    (benchmark_symbol : String) (r : MetricsRow → MetricsRow → Prop)
    [DecidableRel r] : List MetricsRow :=
  let benchmark_returns := (resolve benchmark_symbol).bind (calculate_log_returns logFn)
  let rows := cryptos.filterMap (symbolRow resolve logFn benchmark_returns benchmark_symbol)
  if rows = [] then []
  else (List.insertionSort r rows).map addRisk

/-! ## Helper lemmas -/

lemma list_sum_sq_nonneg (xs : List ℚ) (f : ℚ → ℚ) :
    0 ≤ (xs.map (fun x => (f x) ^ 2)).sum := by
  apply List.sum_nonneg
  intro x hx
  rcases List.mem_map.mp hx with ⟨y, _, hy⟩
  rw [← hy]
  positivity

lemma npVarSample_nonneg (xs : List ℚ) (h : 2 ≤ xs.length) : 0 ≤ npVarSample xs := by
  unfold npVarSample
  apply div_nonneg
  · simpa using list_sum_sq_nonneg xs (fun x => x - npMean xs)
  · have : (2 : ℚ) ≤ (xs.length : ℚ) := by exact_mod_cast h
    linarith

lemma pandasSampleVar_eq_some {xs : List (Option ℚ)} {v : ℚ}
    (h : pandasSampleVar xs = some v) :
    2 ≤ (xs.filterMap id).length ∧ v = npVarSample (xs.filterMap id) := by
  unfold pandasSampleVar at h
  by_cases hl : (xs.filterMap id).length < 2
  · rw [if_pos hl] at h
    exact absurd h (by simp)
  · rw [if_neg hl] at h
    exact ⟨by omega, by injection h with h; exact h.symm⟩

lemma pandasSampleVar_nonneg {xs : List (Option ℚ)} {v : ℚ}
    (h : pandasSampleVar xs = some v) : 0 ≤ v := by
  obtain ⟨hlen, hv⟩ := pandasSampleVar_eq_some h
  rw [hv]
  exact npVarSample_nonneg _ hlen

lemma pandasMean_of_sampleVar {xs : List (Option ℚ)} {v : ℚ}
    (h : pandasSampleVar xs = some v) :
    pandasMean xs = some (npMean (xs.filterMap id)) := by
  obtain ⟨hlen, _⟩ := pandasSampleVar_eq_some h
  unfold pandasMean
  rw [if_neg (by omega)]

/-- The float guard `annual_vol == 0` of `calculate_sharpe_ratio`, with
    `annual_vol = √v · √365`, is equivalent to `v = 0` for the nonnegative
    sample variance `v`. -/
lemma sqrt_eq_zero_iff_of_nonneg (v : ℚ) (hv : 0 ≤ v) :
    Real.sqrt v * Real.sqrt 365 = 0 ↔ v = 0 := by
  constructor
  · intro h
    have h365 : (0 : ℝ) < Real.sqrt 365 := Real.sqrt_pos.mpr (by norm_num)
    have hs : Real.sqrt v = 0 := by
      rcases mul_eq_zero.mp h with h3 | h3
      · exact h3
      · exact absurd h3 (ne_of_gt h365)
    have := (Real.sqrt_eq_zero (by exact_mod_cast hv)).mp hs
    exact_mod_cast this
  · intro h
    rw [h]
    push_cast
    rw [Real.sqrt_zero, zero_mul]

/-- The `_classify_risk` thresholds applied to the float volatility
    `√var` square into the rational threshold tests used by
    `classify_risk_var`. -/
lemma sqrt_lt_threshold_iff (var t : ℚ) (ht : 0 < t) :
    Real.sqrt var < t ↔ (var : ℝ) < (t : ℝ) ^ 2 :=
  Real.sqrt_lt' (by exact_mod_cast ht)

/-! ## C1 -/

/-- C1: FAILS on the code — regressing a series against itself does not give
    beta 1.0.  `calculate_beta` divides the sample covariance (`np.cov`,
    normalization N−1) by the population variance (`np.var`, ddof 0), so
    `calculate_beta(x, x)` yields `beta = n/(n−1)`.  At the 2-point series
    x = [1, 2] the code produces beta = 2 (not 1), while correlation
    `(1/2)/√(1/4) = 1` and r² = 1 do hold as claimed. -/
theorem c1_beta_self_regression_bug :
    calculate_beta [some 1, some 2] [some 1, some 2] =
      BetaReturn.result (BetaResult.mk 2 (RVal.sqrtQuot (1/2) (1/4)) 1 (1/2) (1/4)) ∧
    (2 : ℚ) ≠ 1 ∧
    ((1 : ℝ)/2) / Real.sqrt (1/4) = 1 := by
  refine ⟨?_, by norm_num, ?_⟩
  · have hvp : validPairs [some 1, some 2] [some 1, some 2] = [(1, 1), (2, 2)] := rfl
    simp only [calculate_beta, hvp]
    norm_num [npCovSample, npVarPop, npVarSample, npMean]
  · rw [show ((1:ℝ)/4) = (1/2) ^ 2 by norm_num, Real.sqrt_sq (by norm_num)]
    norm_num

/-! ## C3 -/

/-- C3 (amended): with the default thresholds, `_classify_risk` maps v to
    Low when v < 0.30, Medium when 0.30 ≤ v < 0.60, High when
    0.60 ≤ v < 1.00 and Very High when v ≥ 1.00 (all boundaries strict, so
    v = 0.60 is already High and v = 1.00 already Very High), and the
    assigned level is monotone in v. -/
theorem c3_classify_risk_thresholds :
    (∀ v : ℚ,
      (v < 3/10 → _classify_risk v = "Low Risk") ∧
      (3/10 ≤ v → v < 3/5 → _classify_risk v = "Medium Risk") ∧
      (3/5 ≤ v → v < 1 → _classify_risk v = "High Risk") ∧
      (1 ≤ v → _classify_risk v = "Very High Risk")) ∧
    (∀ v1 v2 : ℚ, v1 ≤ v2 →
      riskRank (_classify_risk v1) ≤ riskRank (_classify_risk v2)) := by
  constructor
  · intro v
    refine ⟨fun h => ?_, fun h1 h2 => ?_, fun h1 h2 => ?_, fun h => ?_⟩ <;>
      · unfold _classify_risk
        split_ifs <;> first | rfl | linarith
  · intro v1 v2 h
    unfold _classify_risk
    split_ifs <;> first | decide | linarith

/-- C3 counterexample: the claim says volatility 0.60 is still Medium
    (\"Medium when v ≤ 60%\"), but the code's strict `< 0.6` bound makes it
    High Risk. -/
theorem c3_boundary_counterexample :
    _classify_risk (3/5) = "High Risk" ∧ _classify_risk (3/5) ≠ "Medium Risk" := by
  have h : _classify_risk (3/5) = "High Risk" := by norm_num [_classify_risk]
  exact ⟨h, by rw [h]; decide⟩

/-- Witness for `c3_classify_risk_thresholds` at v = 1/5 and the pair
    (1/5, 2). -/
theorem c3_classify_risk_thresholds_witness :
    _classify_risk (1/5) = "Low Risk" ∧
    riskRank (_classify_risk (1/5)) ≤ riskRank (_classify_risk 2) :=
  ⟨(c3_classify_risk_thresholds.1 (1/5)).1 (by norm_num),
   c3_classify_risk_thresholds.2 (1/5) 2 (by norm_num)⟩

/-! ## C4 -/

/-- C4: `apply_custom_risk_classification` applies the Sharpe override on top
    of the volatility ladder, for arbitrary thresholds: sharpe < −2 forces
    Very High Risk whatever the volatility; sharpe > 2 turns a
    volatility-derived Medium Risk into Low Risk and leaves every other
    level unchanged; otherwise the volatility-derived level stands. -/
theorem c4_sharpe_override (v s vol_low vol_medium vol_high se sg sp : ℚ) :
    (s < -2 →
      (apply_custom_risk_classification v s vol_low vol_medium vol_high se sg sp).risk_level
        = "Very High Risk") ∧
    (s > 2 →
      (apply_custom_risk_classification v s vol_low vol_medium vol_high se sg sp).risk_level
        = (if volatilityRisk v vol_low vol_medium vol_high = "Medium Risk" then "Low Risk"
           else volatilityRisk v vol_low vol_medium vol_high)) ∧
    (-2 ≤ s → s ≤ 2 →
      (apply_custom_risk_classification v s vol_low vol_medium vol_high se sg sp).risk_level
        = volatilityRisk v vol_low vol_medium vol_high) := by
  refine ⟨fun h => ?_, fun h => ?_, fun h1 h2 => ?_⟩ <;>
    simp only [apply_custom_risk_classification]
  · have h2 : ¬ s > 2 := by linarith
    simp only [if_neg h2, if_pos h]
  · have h2 : ¬ s < -2 := by linarith
    simp only [if_neg h2, if_pos h]
  · have h3 : ¬ s < -2 := by linarith
    have h4 : ¬ s > 2 := by linarith
    simp only [if_neg h3, if_neg h4]

/-- Witness for `c4_sharpe_override`: at volatility 0.5 (Medium band of the
    default thresholds), sharpe −3 forces Very High Risk and sharpe 3
    downgrades Medium to Low. -/
theorem c4_sharpe_override_witness :
    (apply_custom_risk_classification (1/2) (-3) (3/10) (3/5) 1 3 1 0).risk_level
      = "Very High Risk" ∧
    (apply_custom_risk_classification (1/2) 3 (3/10) (3/5) 1 3 1 0).risk_level
      = "Low Risk" := by
  constructor
  · exact (c4_sharpe_override (1/2) (-3) (3/10) (3/5) 1 3 1 0).1 (by norm_num)
  · have h := (c4_sharpe_override (1/2) 3 (3/10) (3/5) 1 3 1 0).2.1 (by norm_num)
    rw [h]
    have hm : volatilityRisk (1/2) (3/10) (3/5) 1 = "Medium Risk" := by
      norm_num [volatilityRisk]
    rw [hm]
    decide

/-! ## C6 -/

/-- C6 (amended): with equal lengths, at least 2 valid pairs, and zero
    population variance of the NaN-filtered benchmark, `calculate_beta`
    returns the bare Python int `0` — a scalar, not a BetaResult dict with a
    beta field. -/
theorem c6_zero_benchmark_variance_scalar (a b : List (Option ℚ))
    (hlen : a.length = b.length) (h2 : 2 ≤ (validPairs a b).length)
    (hv : npVarPop ((validPairs a b).map Prod.snd) = 0) :
    calculate_beta a b = BetaReturn.scalar 0 := by
  simp only [calculate_beta]
  rw [if_neg (by simp [hlen]), if_neg (by omega), if_pos hv]

/-- C6 counterexample: at asset [1, 2] against the constant benchmark
    [5, 5] the function returns the scalar `0`, and that value is not
    `BetaReturn.result r` for any dict r — so the claim's \"returns a
    BetaResult whose beta field is exactly 0\" is false as stated. -/
theorem c6_scalar_counterexample :
    calculate_beta [some 1, some 2] [some 5, some 5] = BetaReturn.scalar 0 ∧
    ∀ r : BetaResult,
      calculate_beta [some 1, some 2] [some 5, some 5] ≠ BetaReturn.result r := by
  have h : calculate_beta [some 1, some 2] [some 5, some 5] = BetaReturn.scalar 0 := by
    have hvp : validPairs [some 1, some 2] [some 5, some 5] = [(1, 5), (2, 5)] := rfl
    simp only [calculate_beta, hvp]
    norm_num [npVarPop, npMean]
  refine ⟨h, fun r hr => ?_⟩
  rw [h] at hr
  exact BetaReturn.noConfusion hr

/-- Witness for `c6_zero_benchmark_variance_scalar` at asset [1, 3],
    benchmark [7, 7]. -/
theorem c6_zero_benchmark_variance_scalar_witness :
    calculate_beta [some 1, some 3] [some 7, some 7] = BetaReturn.scalar 0 := by
  have hvp : validPairs [some 1, some 3] [some 7, some 7] = [(1, 7), (3, 7)] := rfl
  apply c6_zero_benchmark_variance_scalar
  · rfl
  · rw [hvp]
    norm_num
  · rw [hvp]
    norm_num [npVarPop, npMean]

/-! ## C5 -/

/-- C5: whenever the annualized volatility `std(log returns) · √365` of a
    returns series is 0, `calculate_sharpe_ratio` returns a dict whose
    sharpe_ratio is exactly the rational 0 — not NaN and not `None` — and
    still reports the annual return, the (zero) annual volatility and the
    risk-free rate. -/
theorem c5_zero_volatility_sharpe (returns_data : List ReturnRow) (rf v : ℚ)
    (hv : pandasSampleVar (returns_data.map (fun r => r.log_return)) = some v)
    (h0 : Real.sqrt v * Real.sqrt 365 = 0) :
    calculate_sharpe_ratio returns_data rf =
      some (SharpeResult.mk (RVal.exact 0)
        ((pandasMean (returns_data.map (fun r => r.log_return))).map (fun m => m * 365))
        (some 0) rf) := by
  have hvn : 0 ≤ v := pandasSampleVar_nonneg hv
  have hv0 : v = 0 := (sqrt_eq_zero_iff_of_nonneg v hvn).mp h0
  subst hv0
  have hm := pandasMean_of_sampleVar hv
  have hne : ¬ returns_data.length = 0 := by
    obtain ⟨hlen, _⟩ := pandasSampleVar_eq_some hv
    have h1 : ((returns_data.map (fun r => r.log_return)).filterMap id).length ≤
        (returns_data.map (fun r => r.log_return)).length := List.length_filterMap_le _ _
    rw [List.length_map] at h1
    omega
  simp only [calculate_sharpe_ratio, if_neg hne]
  rw [hv, hm]
  norm_num

/-- Witness for `c5_zero_volatility_sharpe`: two identical log returns give a
    zero volatility and a sharpe of exactly 0. -/
theorem c5_zero_volatility_sharpe_witness :
    calculate_sharpe_ratio [ReturnRow.mk 1 1 (some 0) 0, ReturnRow.mk 2 1 (some 0) 0] (2/100) =
      some (SharpeResult.mk (RVal.exact 0)
        ((pandasMean ([ReturnRow.mk 1 1 (some 0) 0, ReturnRow.mk 2 1 (some 0) 0].map
          (fun r => r.log_return))).map (fun m => m * 365))
        (some 0) (2/100)) := by
  refine c5_zero_volatility_sharpe _ (2/100) 0 ?_ ?_
  · have h : ([ReturnRow.mk 1 1 (some 0) 0, ReturnRow.mk 2 1 (some 0) 0].map
        (fun r => r.log_return)) = [some 0, some 0] := rfl
    rw [h]
    norm_num [pandasSampleVar, npVarSample, npMean, List.filterMap]
  · push_cast
    rw [Real.sqrt_zero, zero_mul]

/-! ## C10 helpers -/

lemma get_data_status_cache (s : EngineState) (now : ℚ) :
    (get_data_status s now).2.last_update = s.last_update ∧
    (get_data_status s now).2.data_cache = s.data_cache := by
  unfold get_data_status
  cases h : s.last_update
  · simp [h]
  · dsimp only
    split_ifs <;> simp [h]

lemma syncLoop_allFail (s : EngineState) (now : ℚ)
    (sources : List (SrcRes (List (String × ℚ)))) :
    (∀ x ∈ sources, x = SrcRes.exc ∨ x = SrcRes.ret []) →
    syncLoop s now sources = (none, EngineState.mk s.last_update s.data_cache ("error")) := by
  induction sources with
  | nil => intro _; rfl
  | cons x rest ih =>
      intro h
      rcases h x (List.mem_cons_self x rest) with hx | hx <;> subst hx
      · simp only [syncLoop]
        exact ih (fun y hy => h y (List.mem_cons_of_mem _ hy))
      · simp only [syncLoop, if_true]
        exact ih (fun y hy => h y (List.mem_cons_of_mem _ hy))

lemma syncLoop_firstSuccess (s : EngineState) (now : ℚ)
    (pre post : List (SrcRes (List (String × ℚ)))) (d : List (String × ℚ))
    (hd : d ≠ []) :
    (∀ x ∈ pre, x = SrcRes.exc ∨ x = SrcRes.ret []) →
    syncLoop s now (pre ++ SrcRes.ret d :: post) =
      (some d, EngineState.mk (some now) d ("ready")) := by
  induction pre with
  | nil =>
      intro _
      simp only [List.nil_append, syncLoop]
      rw [if_neg hd]
  | cons x rest ih =>
      intro h
      rcases h x (List.mem_cons_self x rest) with hx | hx <;> subst hx
      · simp only [List.cons_append, syncLoop]
        exact ih (fun y hy => h y (List.mem_cons_of_mem _ hy))
      · simp only [List.cons_append, syncLoop, if_true]
        exact ih (fun y hy => h y (List.mem_cons_of_mem _ hy))

/-! ## C10 -/

/-- C10: when every source fails (exception or falsy result) and the early
    cache return does not fire, `sync_data` returns `None` with status
    "error" while leaving `data_cache` and `last_update` untouched; and when
    `force` is false and the last successful update is younger than 60
    seconds, `sync_data` returns the cached data — for *every* possible
    source outcome list, i.e. without consulting any source — flipping only
    the status to "ready". -/
theorem c10_sync_error_and_cache :
    (∀ (s : EngineState) (now : ℚ) (force : Bool)
      (sources : List (SrcRes (List (String × ℚ)))),
      (∀ x ∈ sources, x = SrcRes.exc ∨ x = SrcRes.ret []) →
      (force = true ∨ (get_data_status s now).1 ≠ "ready") →
      sync_data s now force sources =
        (none, EngineState.mk s.last_update s.data_cache ("error"))) ∧
    (∀ (s : EngineState) (now t : ℚ) (sources : List (SrcRes (List (String × ℚ)))),
      s.last_update = some t → now - t < 60 →
      sync_data s now false sources =
        (some s.data_cache, EngineState.mk s.last_update s.data_cache ("ready"))) := by
  constructor
  · intro s now force sources hfail hguard
    have hcache := get_data_status_cache s now
    simp only [sync_data]
    rw [if_neg ?hneg]
    case hneg =>
      rcases hguard with hg | hg
      · intro hc
        rw [hg] at hc
        exact absurd hc.1 (by simp)
      · intro hc
        exact hg hc.2
    rw [syncLoop_allFail _ now sources hfail]
    rw [hcache.1, hcache.2]
  · intro s now t sources hlu hlt
    simp only [sync_data, get_data_status, hlu]
    rw [if_pos hlt]
    simp

/-- Witness for `c10_sync_error_and_cache`: a forced sync over one failing
    source errors out without touching the cache; a fresh cache is returned
    as-is without consulting the sources. -/
theorem c10_sync_error_and_cache_witness :
    sync_data (EngineState.mk Option.none [] ("idle")) 0 true [SrcRes.exc] =
      (none, EngineState.mk Option.none [] ("error")) ∧
    sync_data (EngineState.mk (some 0) [(("BTC"), 5)] ("ready")) 30 false [SrcRes.exc] =
      (some [(("BTC"), 5)], EngineState.mk (some 0) [(("BTC"), 5)] ("ready")) := by
  constructor
  · exact c10_sync_error_and_cache.1 (EngineState.mk Option.none [] ("idle")) 0 true
      [SrcRes.exc] (by simp) (Or.inl rfl)
  · exact c10_sync_error_and_cache.2 (EngineState.mk (some 0) [(("BTC"), 5)] ("ready")) 30 0
      [SrcRes.exc] rfl (by norm_num)

/-! ## C7 -/

/-- C7 (amended): both resolvers try their sources in the fixed priority
    order and return the first truthy result exactly as the winning source's
    client produced it (for the historical resolver: truncated to its last
    1000 rows, an identity for the ≤ 1000-row frames the day caps allow), and
    return Python `None` — without raising — when every source raises or is
    skipped; the one exception is the historical resolver's *final* source
    (CoinGecko): a successful but empty CoinGecko frame is returned as an
    empty series instead of `None`, because only the Binance branch checks
    emptiness. -/
theorem c7_resolver_fallback :
    (∀ (s : EngineState) (now : ℚ) (pre post : List (SrcRes (List (String × ℚ))))
      (d : List (String × ℚ)),
      (∀ x ∈ pre, x = SrcRes.exc ∨ x = SrcRes.ret []) → d ≠ [] →
      (sync_data s now true (pre ++ SrcRes.ret d :: post)).1 = some d) ∧
    (∀ (s : EngineState) (now : ℚ) (sources : List (SrcRes (List (String × ℚ)))),
      (∀ x ∈ sources, x = SrcRes.exc ∨ x = SrcRes.ret []) →
      (sync_data s now true sources).1 = none) ∧
    (∀ (ck : Bool) (cr : SrcRes (List (ℕ × ℚ))) (d : List (ℕ × ℚ)), d ≠ [] →
      get_historical_data true (SrcRes.ret d) ck cr = some (tail1000 d) ∧
      (d.length ≤ 1000 → tail1000 d = d)) ∧
    (∀ (bk : Bool) (br : SrcRes (List (ℕ × ℚ))) (d : List (ℕ × ℚ)),
      (bk = false ∨ br = SrcRes.exc ∨ br = SrcRes.ret []) →
      get_historical_data bk br true (SrcRes.ret d) = some (tail1000 d)) ∧
    (∀ (bk : Bool) (br : SrcRes (List (ℕ × ℚ))) (ck : Bool)
      (cr : SrcRes (List (ℕ × ℚ))),
      (bk = false ∨ br = SrcRes.exc ∨ br = SrcRes.ret []) →
      get_historical_data bk br ck SrcRes.exc = none ∧
      get_historical_data bk br false cr = none) := by
  refine ⟨?_, ?_, ?_, ?_, ?_⟩
  · intro s now pre post d hpre hd
    simp only [sync_data]
    rw [if_neg (by simp)]
    rw [syncLoop_firstSuccess _ now pre post d hd hpre]
  · intro s now sources hfail
    simp only [sync_data]
    rw [if_neg (by simp)]
    rw [syncLoop_allFail _ now sources hfail]
  · intro ck cr d hd
    constructor
    · simp only [get_historical_data, if_true]
      rw [if_neg hd]
    · intro hlen
      unfold tail1000
      rw [if_neg (by omega)]
  · intro bk br d h
    rcases h with h | h | h
    · subst h
      simp [get_historical_data]
    · subst h
      cases bk <;> simp [get_historical_data]
    · subst h
      cases bk <;> simp [get_historical_data]
  · intro bk br ck cr h
    constructor
    · rcases h with h | h | h
      · subst h
        cases ck <;> simp [get_historical_data]
      · subst h
        cases bk <;> cases ck <;> simp [get_historical_data]
      · subst h
        cases bk <;> cases ck <;> simp [get_historical_data]
    · rcases h with h | h | h
      · subst h
        simp [get_historical_data]
      · subst h
        cases bk <;> simp [get_historical_data]
      · subst h
        cases bk <;> simp [get_historical_data]

/-- C7 counterexample: Binance raises and CoinGecko succeeds with an *empty*
    series — every source has \"failed or returned an empty result\" in the
    claim's sense, yet `get_historical_data` returns the empty series
    `some []`, not the claimed null. -/
theorem c7_empty_last_source_counterexample :
    get_historical_data true SrcRes.exc true (SrcRes.ret ([] : List (ℕ × ℚ))) = some [] ∧
    some ([] : List (ℕ × ℚ)) ≠ none := by
  constructor
  · rfl
  · simp

/-- Witness for `c7_resolver_fallback`: the quote resolver skips a raising
    source and returns the second source's data unmodified; the historical
    resolver falls back from a raising Binance to a CoinGecko frame. -/
theorem c7_resolver_fallback_witness :
    (sync_data (EngineState.mk Option.none [] ("idle")) 0 true
      [SrcRes.exc, SrcRes.ret [(("BTC"), 5)]]).1 = some [(("BTC"), 5)] ∧
    get_historical_data true SrcRes.exc true (SrcRes.ret [((0 : ℕ), (7 : ℚ))]) =
      some (tail1000 [((0 : ℕ), (7 : ℚ))]) := by
  constructor
  · exact c7_resolver_fallback.1 (EngineState.mk Option.none [] ("idle")) 0 [SrcRes.exc] []
      [(("BTC"), 5)] (by simp) (by simp)
  · exact c7_resolver_fallback.2.2.2.1 true SrcRes.exc [((0 : ℕ), (7 : ℚ))]
      (Or.inr (Or.inl rfl))

/-! ## C2 helpers -/

lemma tail1000_length {α : Type} (l : List α) :
    (tail1000 l).length = min l.length 1000 := by
  unfold tail1000
  split
  · next h =>
      simp only [List.length_drop]
      omega
  · next h =>
      omega

lemma mem_tail1000 {α : Type} {x : α} {l : List α} (h : x ∈ tail1000 l) : x ∈ l := by
  unfold tail1000 at h
  split at h
  · exact List.drop_subset _ _ h
  · exact h

lemma returnRows_length (logFn : ℚ → Option ℚ) (price_data : List (ℕ × ℚ)) :
    (returnRows logFn price_data).length = price_data.length - 1 := by
  unfold returnRows
  rw [List.length_zipWith, List.length_tail]
  omega

lemma mem_zipWith_exists {α β γ : Type} (f : α → β → γ) (l : List α) :
    ∀ (l' : List β) (c : γ), c ∈ List.zipWith f l l' →
      ∃ p ∈ l.zip l', c = f p.1 p.2 := by
  induction l with
  | nil =>
      intro l' c h
      simp at h
  | cons a as ih =>
      intro l' c h
      cases l' with
      | nil => simp at h
      | cons b bs =>
          rw [List.zipWith_cons_cons] at h
          rcases List.mem_cons.mp h with h | h
          · exact ⟨(a, b), by simp, h⟩
          · obtain ⟨p, hp, hc⟩ := ih bs c h
            exact ⟨p, by simp [hp], hc⟩

/-! ## C2 -/

/-- C2 (amended): for a price series of length n ≥ 2 with positive prices,
    `calculate_log_returns` succeeds with the *last min(n−1, 1000)* of the
    n−1 consecutive-pair returns (the `df.tail(1000)` cap makes "exactly
    n−1" fail for n > 1001); every produced row comes from a consecutive
    pair of the input, is indexed by the later timestamp of that pair, and
    satisfies `simple_return = ratio − 1` and
    `exp(log(ratio)) − 1 = simple_return` exactly, where
    `ratio = price[t]/price[t−1]` is the argument the code hands to
    `np.log`. -/
theorem c2_log_returns_shape (logFn : ℚ → Option ℚ) (price_data : List (ℕ × ℚ))
    (h2 : 2 ≤ price_data.length) (hpos : ∀ p ∈ price_data, 0 < p.2) :
    calculate_log_returns logFn price_data =
      some (tail1000 (returnRows logFn price_data)) ∧
    (tail1000 (returnRows logFn price_data)).length = min (price_data.length - 1) 1000 ∧
    (∀ row ∈ tail1000 (returnRows logFn price_data),
      (∃ p ∈ price_data.zip price_data.tail,
        row = ReturnRow.mk p.2.1 (p.2.2 / p.1.2) (logFn (p.2.2 / p.1.2))
          ((p.2.2 - p.1.2) / p.1.2)) ∧
      row.log_return = logFn row.ratio ∧
      row.simple_return = row.ratio - 1 ∧
      0 < row.ratio ∧
      Real.exp (Real.log ((row.ratio : ℚ) : ℝ)) - 1 = ((row.simple_return : ℚ) : ℝ)) := by
  refine ⟨?_, ?_, ?_⟩
  · unfold calculate_log_returns
    rw [if_neg (by omega)]
  · rw [tail1000_length, returnRows_length]
  · intro row hrow
    have hmem : row ∈ returnRows logFn price_data := mem_tail1000 hrow
    unfold returnRows at hmem
    obtain ⟨p, hp, hrw⟩ := mem_zipWith_exists _ _ _ _ hmem
    have hm1 : p.1 ∈ price_data := (List.of_mem_zip hp).1
    have hm2 : p.2 ∈ price_data := List.mem_of_mem_tail (List.of_mem_zip hp).2
    have hp1 : 0 < p.1.2 := hpos _ hm1
    have hp2 : 0 < p.2.2 := hpos _ hm2
    subst hrw
    have hne : p.1.2 ≠ 0 := ne_of_gt hp1
    refine ⟨⟨p, hp, rfl⟩, rfl, ?_, ?_, ?_⟩
    · show (p.2.2 - p.1.2) / p.1.2 = p.2.2 / p.1.2 - 1
      field_simp
    · show 0 < p.2.2 / p.1.2
      positivity
    · show Real.exp (Real.log ((p.2.2 / p.1.2 : ℚ) : ℝ)) - 1 =
        (((p.2.2 - p.1.2) / p.1.2 : ℚ) : ℝ)
      rw [Real.exp_log (by push_cast; positivity)]
      have hner : ((p.1.2 : ℝ)) ≠ 0 := by exact_mod_cast hne
      push_cast
      field_simp

/-- The 1002-day constant price series exhibiting the `tail(1000)` cap. -/
def longPrices : List (ℕ × ℚ) := (List.range 1002).map (fun i => (i, 1))

/-- C2 counterexample: on a price series of length n = 1002 the code returns
    1000 rows, not the claimed n − 1 = 1001. -/
theorem c2_truncation_counterexample :
    (calculate_log_returns (fun q => some q) longPrices).map List.length = some 1000 ∧
    longPrices.length - 1 = 1001 ∧ (1000 : ℕ) ≠ 1001 := by
  have hlen : longPrices.length = 1002 := by simp [longPrices]
  refine ⟨?_, by rw [hlen], by omega⟩
  unfold calculate_log_returns
  rw [if_neg (by omega)]
  simp only [Option.map_some']
  rw [tail1000_length, returnRows_length, hlen]
  norm_num

/-- Witness for `c2_log_returns_shape` on the 2-point series
    [(0, 2), (1, 3)]. -/
theorem c2_log_returns_shape_witness :
    calculate_log_returns (fun q => some q) [(0, 2), (1, 3)] =
      some (tail1000 (returnRows (fun q => some q) [(0, 2), (1, 3)])) ∧
    (tail1000 (returnRows (fun q => some q) [(0, 2), (1, 3)])).length =
      min ([((0 : ℕ), (2 : ℚ)), (1, 3)].length - 1) 1000 := by
  have h := c2_log_returns_shape (fun q => some q) [(0, 2), (1, 3)]
    (by simp)
    (by
      intro p hp
      simp only [List.mem_cons, List.not_mem_nil, or_false] at hp
      rcases hp with rfl | rfl <;> norm_num)
  exact ⟨h.1, h.2.1⟩

/-! ## Aggregator helpers -/

lemma generate_metrics_table_eq (resolve : String → Option (List (ℕ × ℚ)))
    (logFn : ℚ → Option ℚ) (cryptos : List (String × String)) (bm : String)
    (r : MetricsRow → MetricsRow → Prop) [DecidableRel r] :
    generate_metrics_table resolve logFn cryptos bm r =
      (List.insertionSort r (cryptos.filterMap
        (symbolRow resolve logFn ((resolve bm).bind (calculate_log_returns logFn)) bm))).map
        addRisk := by
  simp only [generate_metrics_table]
  split
  · next h =>
      rw [h]
      rfl
  · rfl

lemma mem_generate_iff (resolve : String → Option (List (ℕ × ℚ)))
    (logFn : ℚ → Option ℚ) (cryptos : List (String × String)) (bm : String)
    (r : MetricsRow → MetricsRow → Prop) [DecidableRel r] (row : MetricsRow) :
    row ∈ generate_metrics_table resolve logFn cryptos bm r ↔
      ∃ row', row' ∈ cryptos.filterMap
          (symbolRow resolve logFn ((resolve bm).bind (calculate_log_returns logFn)) bm) ∧
        row = addRisk row' := by
  rw [generate_metrics_table_eq, List.mem_map]
  constructor
  · rintro ⟨row', hm, hrw⟩
    exact ⟨row', (List.perm_insertionSort r _).mem_iff.mp hm, hrw.symm⟩
  · rintro ⟨row', hm, hrw⟩
    exact ⟨row', (List.perm_insertionSort r _).mem_iff.mpr hm, hrw.symm⟩

lemma symbolRow_eq_some {resolve : String → Option (List (ℕ × ℚ))}
    {logFn : ℚ → Option ℚ} {br : Option (List ReturnRow)} {bm : String}
    {c : String × String} {row' : MetricsRow} :
    symbolRow resolve logFn br bm c = some row' ↔
      ∃ pd rd, resolve c.1 = some pd ∧ calculate_log_returns logFn pd = some rd ∧
        row' = mkRow c.1 c.2 pd rd br bm := by
  unfold symbolRow
  cases hr : resolve c.1 with
  | none => simp
  | some pd =>
      cases hc : calculate_log_returns logFn pd with
      | none => simp [hc]
      | some rd => simp [hc, eq_comm]

lemma symbolRow_isSome {resolve : String → Option (List (ℕ × ℚ))}
    {logFn : ℚ → Option ℚ} {br : Option (List ReturnRow)} {bm : String}
    (c : String × String) :
    (symbolRow resolve logFn br bm c).isSome =
      ((resolve c.1).bind (calculate_log_returns logFn)).isSome := by
  unfold symbolRow
  cases hr : resolve c.1 with
  | none => simp
  | some pd =>
      cases hc : calculate_log_returns logFn pd with
      | none => simp [hc]
      | some rd => simp [hc]

lemma length_filterMap_eq_filter {α β : Type} (f : α → Option β) (l : List α) :
    (l.filterMap f).length = (l.filter (fun a => (f a).isSome)).length := by
  induction l with
  | nil => rfl
  | cons a t ih =>
      cases h : f a
      · simp [List.filterMap_cons, List.filter_cons, h, ih]
      · simp [List.filterMap_cons, List.filter_cons, h, ih]

lemma addRisk_fields (row : MetricsRow) :
    (addRisk row).symbol = row.symbol ∧ (addRisk row).beta = row.beta ∧
    (addRisk row).correlation_vs_btc = row.correlation_vs_btc ∧
    (addRisk row).r_squared = row.r_squared :=
  ⟨rfl, rfl, rfl, rfl⟩

lemma mkRow_symbol (sym nm : String) (pd : List (ℕ × ℚ)) (rd : List ReturnRow)
    (br : Option (List ReturnRow)) (bm : String) :
    (mkRow sym nm pd rd br bm).symbol = sym := rfl

lemma mkRow_beta_default (sym nm : String) (pd : List (ℕ × ℚ)) (rd : List ReturnRow)
    (br : Option (List ReturnRow)) (bm : String) (h : br = Option.none ∨ sym = bm) :
    (mkRow sym nm pd rd br bm).beta = 1 ∧
    (mkRow sym nm pd rd br bm).correlation_vs_btc = RVal.exact 0 ∧
    (mkRow sym nm pd rd br bm).r_squared = 0 := by
  rcases h with h | h
  · subst h
    exact ⟨rfl, rfl, rfl⟩
  · subst h
    cases br with
    | none => exact ⟨rfl, rfl, rfl⟩
    | some br' =>
        unfold mkRow
        simp

lemma mkRow_vol_default (sym nm : String) (pd : List (ℕ × ℚ)) (rd : List ReturnRow)
    (br : Option (List ReturnRow)) (bm : String)
    (h : calculate_volatility rd true = none) :
    (mkRow sym nm pd rd br bm).daily_vol_var = some 0 ∧
    (mkRow sym nm pd rd br bm).annual_vol_var = some 0 := by
  unfold mkRow
  constructor <;> simp [h]

lemma mkRow_sharpe_default (sym nm : String) (pd : List (ℕ × ℚ)) (rd : List ReturnRow)
    (br : Option (List ReturnRow)) (bm : String)
    (h : calculate_sharpe_ratio rd (2/100) = none) :
    (mkRow sym nm pd rd br bm).sharpe_ratio = RVal.exact 0 ∧
    (mkRow sym nm pd rd br bm).annual_return = some 0 := by
  unfold mkRow
  constructor <;> simp [h]

/-! ## C8 -/

/-- C8: the aggregator skips — produces no row for — every symbol whose
    series cannot be resolved or whose returns are insufficient, emits
    exactly one row per remaining symbol (the output length is the number of
    succeeding symbols, so possibly fewer rows than symbols requested), and
    every emitted row is fully built by `mkRow` from genuinely resolved
    data, never a shell with null series-derived fields.  The embedding is
    total, mirroring that the loop raises no exception for such failures. -/
theorem c8_aggregator_partial_failure (resolve : String → Option (List (ℕ × ℚ)))
    (logFn : ℚ → Option ℚ) (cryptos : List (String × String)) (bm : String)
    (r : MetricsRow → MetricsRow → Prop) [DecidableRel r] :
    (∀ c ∈ cryptos, (resolve c.1).bind (calculate_log_returns logFn) = none →
      ∀ row ∈ generate_metrics_table resolve logFn cryptos bm r, row.symbol ≠ c.1) ∧
    (∀ c ∈ cryptos, ((resolve c.1).bind (calculate_log_returns logFn)).isSome →
      ∃ row ∈ generate_metrics_table resolve logFn cryptos bm r, row.symbol = c.1) ∧
    (generate_metrics_table resolve logFn cryptos bm r).length =
      (cryptos.filter
        (fun c => ((resolve c.1).bind (calculate_log_returns logFn)).isSome)).length ∧
    (∀ row ∈ generate_metrics_table resolve logFn cryptos bm r,
      ∃ c pd rd, c ∈ cryptos ∧ resolve c.1 = some pd ∧
        calculate_log_returns logFn pd = some rd ∧
        row = addRisk (mkRow c.1 c.2 pd rd
          ((resolve bm).bind (calculate_log_returns logFn)) bm)) := by
  refine ⟨?_, ?_, ?_, ?_⟩
  · intro c hc hnone row hrow heq
    rw [mem_generate_iff] at hrow
    obtain ⟨row', hmem, hrw⟩ := hrow
    obtain ⟨c', hc', hsr⟩ := List.mem_filterMap.mp hmem
    obtain ⟨pd, rd, hres, hcalc, hrow'⟩ := symbolRow_eq_some.mp hsr
    have hsym : row.symbol = c'.1 := by
      rw [hrw, (addRisk_fields row').1, hrow', mkRow_symbol]
    rw [hsym] at heq
    rw [heq] at hres
    rw [hres] at hnone
    simp only [Option.some_bind] at hnone
    rw [hcalc] at hnone
    exact Option.noConfusion hnone
  · intro c hc hsome
    rw [Option.isSome_iff_exists] at hsome
    obtain ⟨rd, hrd⟩ := hsome
    obtain ⟨pd, hpd, hcalc⟩ := Option.bind_eq_some.mp hrd
    have hsr : symbolRow resolve logFn
        ((resolve bm).bind (calculate_log_returns logFn)) bm c =
        some (mkRow c.1 c.2 pd rd
          ((resolve bm).bind (calculate_log_returns logFn)) bm) :=
      symbolRow_eq_some.mpr ⟨pd, rd, hpd, hcalc, rfl⟩
    refine ⟨addRisk (mkRow c.1 c.2 pd rd
      ((resolve bm).bind (calculate_log_returns logFn)) bm), ?_, rfl⟩
    rw [mem_generate_iff]
    exact ⟨_, List.mem_filterMap.mpr ⟨c, hc, hsr⟩, rfl⟩
  · rw [generate_metrics_table_eq, List.length_map,
      (List.perm_insertionSort r _).length_eq, length_filterMap_eq_filter]
    exact congrArg List.length (List.filter_congr (fun c _ => symbolRow_isSome c))
  · intro row hrow
    rw [mem_generate_iff] at hrow
    obtain ⟨row', hmem, hrw⟩ := hrow
    obtain ⟨c', hc', hsr⟩ := List.mem_filterMap.mp hmem
    obtain ⟨pd, rd, hres, hcalc, hrow'⟩ := symbolRow_eq_some.mp hsr
    exact ⟨c', pd, rd, hc', hres, hcalc, by rw [hrw, hrow']⟩

/-! ## C9 -/

/-- C9: whenever beta metrics are not computed — the benchmark returns could
    not be built, or the row's symbol is the benchmark itself — the row is
    still emitted with the defaults beta = 1.0, correlation = 0 and
    r² = 0; and at the row-construction site a missing volatility dict
    defaults both volatility columns to 0 and a missing Sharpe dict defaults
    sharpe_ratio and annual_return to 0, indistinguishable in the output
    from genuinely computed values. -/
theorem c9_row_defaults (resolve : String → Option (List (ℕ × ℚ)))
    (logFn : ℚ → Option ℚ) (cryptos : List (String × String)) (bm : String)
    (r : MetricsRow → MetricsRow → Prop) [DecidableRel r] :
    (∀ row ∈ generate_metrics_table resolve logFn cryptos bm r,
      ((resolve bm).bind (calculate_log_returns logFn) = none ∨ row.symbol = bm) →
      row.beta = 1 ∧ row.correlation_vs_btc = RVal.exact 0 ∧ row.r_squared = 0) ∧
    (∀ (sym nm : String) (pd : List (ℕ × ℚ)) (rd : List ReturnRow)
      (br : Option (List ReturnRow)) (bm2 : String),
      calculate_volatility rd true = none →
      (mkRow sym nm pd rd br bm2).daily_vol_var = some 0 ∧
      (mkRow sym nm pd rd br bm2).annual_vol_var = some 0) ∧
    (∀ (sym nm : String) (pd : List (ℕ × ℚ)) (rd : List ReturnRow)
      (br : Option (List ReturnRow)) (bm2 : String),
      calculate_sharpe_ratio rd (2/100) = none →
      (mkRow sym nm pd rd br bm2).sharpe_ratio = RVal.exact 0 ∧
      (mkRow sym nm pd rd br bm2).annual_return = some 0) := by
  refine ⟨?_, mkRow_vol_default, mkRow_sharpe_default⟩
  intro row hrow hcase
  rw [mem_generate_iff] at hrow
  obtain ⟨row', hmem, hrw⟩ := hrow
  obtain ⟨c', hc', hsr⟩ := List.mem_filterMap.mp hmem
  obtain ⟨pd, rd, hres, hcalc, hrow'⟩ := symbolRow_eq_some.mp hsr
  have hdef : row'.beta = 1 ∧ row'.correlation_vs_btc = RVal.exact 0 ∧
      row'.r_squared = 0 := by
    rw [hrow']
    apply mkRow_beta_default
    rcases hcase with hb | hb
    · exact Or.inl hb
    · right
      have hsym : row.symbol = c'.1 := by
        rw [hrw, (addRisk_fields row').1, hrow', mkRow_symbol]
      rw [← hsym, hb]
  refine ⟨?_, ?_, ?_⟩
  · rw [hrw, (addRisk_fields row').2.1, hdef.1]
  · rw [hrw, (addRisk_fields row').2.2.1, hdef.2.1]
  · rw [hrw, (addRisk_fields row').2.2.2, hdef.2.2]

/-! ## Concrete fixtures for the aggregator witnesses -/

/-- Identity stand-in for the float log in witness runs. -/
def wLog : ℚ → Option ℚ := fun q => some q

/-- A 2-point fixture price series. -/
def wPrices : List (ℕ × ℚ) := [(0, 1), (1, 2)]

/-- A resolver that succeeds only for symbol AAA. -/
def wResolve : String → Option (List (ℕ × ℚ)) :=
  fun s => if s = "AAA" then some wPrices else none

/-- Trivial sort relation for witness runs. -/
def wRel : MetricsRow → MetricsRow → Prop := fun _ _ => True

instance wRelDecidable : DecidableRel wRel := fun _ _ => Decidable.isTrue trivial

/-- The fixture returns series and metrics row for symbol AAA against the
    unresolvable benchmark ZZZ. -/
def wReturns : List ReturnRow := tail1000 (returnRows wLog wPrices)

/-- The fixture metrics row (benchmark returns absent). -/
def wRow : MetricsRow := mkRow ("AAA") ("Asset A") wPrices wReturns Option.none ("ZZZ")

/-- Witness for `c8_aggregator_partial_failure`: with AAA resolvable and BBB
    not, the table contains a row for AAA, no row carries symbol BBB, and
    the row count is 1. -/
theorem c8_aggregator_partial_failure_witness :
    (∃ row ∈ generate_metrics_table wResolve wLog
        [(("AAA"), ("Asset A")), (("BBB"), ("Asset B"))] ("ZZZ") wRel,
      row.symbol = "AAA") ∧
    (∀ row ∈ generate_metrics_table wResolve wLog
        [(("AAA"), ("Asset A")), (("BBB"), ("Asset B"))] ("ZZZ") wRel,
      row.symbol ≠ "BBB") ∧
    (generate_metrics_table wResolve wLog
        [(("AAA"), ("Asset A")), (("BBB"), ("Asset B"))] ("ZZZ") wRel).length = 1 := by
  have h := c8_aggregator_partial_failure wResolve wLog
    [(("AAA"), ("Asset A")), (("BBB"), ("Asset B"))] ("ZZZ") wRel
  refine ⟨?_, ?_, ?_⟩
  · exact h.2.1 (("AAA"), ("Asset A")) (by simp) rfl
  · exact h.1 (("BBB"), ("Asset B")) (by simp) rfl
  · rw [h.2.2.1]
    rfl

/-- Witness for `c9_row_defaults`: the AAA row built against the failed
    benchmark ZZZ carries the defaults beta = 1, correlation = 0, r² = 0,
    and an empty returns list defaults the volatility and Sharpe columns. -/
theorem c9_row_defaults_witness :
    ((addRisk wRow).beta = 1 ∧ (addRisk wRow).correlation_vs_btc = RVal.exact 0 ∧
      (addRisk wRow).r_squared = 0) ∧
    (mkRow ("AAA") ("Asset A") [] [] Option.none ("ZZZ")).daily_vol_var = some 0 ∧
    (mkRow ("AAA") ("Asset A") [] [] Option.none ("ZZZ")).sharpe_ratio = RVal.exact 0 := by
  have h := c9_row_defaults wResolve wLog [(("AAA"), ("Asset A"))] ("ZZZ") wRel
  refine ⟨?_, ?_, ?_⟩
  · have hmem : addRisk wRow ∈ generate_metrics_table wResolve wLog
        [(("AAA"), ("Asset A"))] ("ZZZ") wRel := by
      rw [mem_generate_iff]
      refine ⟨wRow, ?_, rfl⟩
      apply List.mem_filterMap.mpr
      refine ⟨(("AAA"), ("Asset A")), by simp, ?_⟩
      apply symbolRow_eq_some.mpr
      exact ⟨wPrices, wReturns, rfl, rfl, rfl⟩
    exact h.1 (addRisk wRow) hmem (Or.inl rfl)
  · exact (h.2.1 ("AAA") ("Asset A") [] [] Option.none ("ZZZ") rfl).1
  · exact (h.2.2 ("AAA") ("Asset A") [] [] Option.none ("ZZZ") rfl).1
